import Mathlib

/-!
Shallow embedding of the jsonvalidator library (src/jsonvalidator/__init__.py),
a Python 2 "schema by example" JSON validator.  Schemas and data are
JSON-compatible Python values; compiling a schema produces a tree of handler
objects, and validation walks the tree, raising JSONValidationError on the
first mismatch.  The embedding below translates the handler classes, the
HANDLERS_BY_TYPE dispatch table, getValidator, getValidatorSynonyms and
JSONValidator.validate into pure Lean functions.
-/

set_option maxHeartbeats 1000000

/-- Python runtime types that occur as keys of HANDLERS_BY_TYPE.
`str` and `unicode` are the two Python 2 string types, `int` and `long` the
two integer types, `noneType` is types.NoneType, `sre` is the compiled-regex
type, `permissiveObject` the PermissiveObject dict subclass and
`optionalFunction` the OptionalFunction wrapper class. -/
inductive Tag where
  | str | unicode | int | long | float | dict | list | bool | noneType
  | sre | permissiveObject | optionalFunction
deriving DecidableEq, Repr

/-- The handler classes of the source (values of HANDLERS_BY_TYPE, plus
FunctionHandler which has no entry in the table). -/
inductive HandlerClass where
  | stringH | reH | numberH | booleanH | nullH | functionH | optionalFunctionH
  | objectH | permissiveObjectH | arrayH
deriving DecidableEq, Repr

/-- JSON-compatible Python values.  `int` covers Python int and long (both
dispatch to NumberHandler), `flt` models Python float values (claims never
depend on float arithmetic, only on the runtime type tag and truthiness, so a
rational carrier is adequate), `obj` is a plain dict as an association list in
insertion order, and `pobj` is an instance of the PermissiveObject dict
subclass.  Python `None` (JSON null) is `null`; an absent object field is
delivered to handlers as `None`, i.e. as `null`. -/
inductive JVal where
  | str (s : String)
  | int (i : Int)
  | flt (q : Rat)
  | bool (b : Bool)
  | null
  | arr (elems : List JVal)
  | obj (fields : List (String × JVal))
  | pobj (fields : List (String × JVal))
deriving Repr

/-- data is None: Python `None`, i.e. JSON null. -/
def isNone : JVal → Bool
  | .null => true
  | _ => false

/-- type(v): the runtime type tag of a value.  String values are tagged
`Tag.str`; Python 2 unicode strings behave identically everywhere in the
source (both map to StringHandler and both satisfy isinstance(-, basestring)),
so the embedding produces the `str` tag. -/
def typeOf : JVal → Tag
  | .str _ => .str
  | .int _ => .int
  | .flt _ => .float
  | .bool _ => .bool
  | .null => .noneType
  | .arr _ => .list
  | .obj _ => .dict
  | .pobj _ => .permissiveObject

/-- Python truthiness of a value: None, False, 0, 0.0, "", [], and empty
dicts are falsy, everything else truthy. -/
def truthy : JVal → Bool
  | .str s => s ≠ ""
  | .int i => i ≠ 0
  | .flt q => q ≠ 0
  | .bool b => b
  | .null => false
  | .arr es => !es.isEmpty
  | .obj fs => !fs.isEmpty
  | .pobj fs => !fs.isEmpty

/-- isinstance(d, basestring): true for the two Python 2 string types. -/
def isBasestring (d : JVal) : Bool :=
  typeOf d = .str ∨ typeOf d = .unicode

/-- isinstance(d, (int, long, float)): true for the numeric types and also
for bool, because Python bool is a subclass of int. -/
def isNumberInstance (d : JVal) : Bool :=
  typeOf d = .int ∨ typeOf d = .long ∨ typeOf d = .float ∨ typeOf d = .bool

/-- isinstance(d, bool). -/
def isBoolInstance (d : JVal) : Bool :=
  typeOf d = .bool

/-- isinstance(d, dict): true for plain dicts and for PermissiveObject,
which subclasses dict. -/
def isDictInstance (d : JVal) : Bool :=
  typeOf d = .dict ∨ typeOf d = .permissiveObject

/-- isinstance(d, list). -/
def isListInstance (d : JVal) : Bool :=
  typeOf d = .list

/-- Python str.startswith, over the character sequences of the strings. -/
def strStartsWith (s p : String) : Bool :=
  p.data.isPrefixOf s.data

/-- Python str.endswith, over the character sequences of the strings. -/
def strEndsWith (s p : String) : Bool :=
  p.data.isSuffixOf s.data

/-- d.get(k, None)-style lookup in an association list (first match wins;
Python dict keys are unique). -/
def alookup {α β : Type} [DecidableEq α] : List (α × β) → α → Option β
  | [], _ => none
  | (k, v) :: rest, a => if k = a then some v else alookup rest a

/-- d[k] = v on an association list: overwrite in place if the key is
present, append otherwise (Python dict assignment). -/
def dictInsert {α β : Type} [DecidableEq α] : List (α × β) → α → β → List (α × β)
  | [], a, b => [(a, b)]
  | (k, v) :: rest, a, b =>
      if k = a then (k, b) :: rest else (k, v) :: dictInsert rest a b

/-- The global HANDLERS_BY_TYPE dispatch table, entries in source order. -/
def HANDLERS_BY_TYPE : List (Tag × HandlerClass) :=
  [ (.str, .stringH), (.unicode, .stringH),
    (.int, .numberH), (.long, .numberH), (.float, .numberH),
    (.dict, .objectH), (.list, .arrayH), (.bool, .booleanH),
    (.noneType, .nullH), (.sre, .reH),
    (.permissiveObject, .permissiveObjectH),
    (.optionalFunction, .optionalFunctionH) ]

/-- A compiled handler (Validator Node).  ObjectHandler stores
`validKeys = set(schema keys)` while PermissiveObjectHandler.__init__ resets
`validKeys = None`; the `Option` mirrors exactly that, so `validKeys.isSome`
distinguishes the two classes.  NullHandler stores `required` like every
BaseHandler but its validate never consults it. -/
inductive Handler where
  | string (required : Bool)
  | number (required : Bool)
  | boolean (required : Bool)
  | nullh (required : Bool)
  | object (required : Bool) (validKeys : Option (List String))
      (handlers : List (String × Handler))
  | array (required : Bool) (handlers : List (Tag × Handler))
deriving Repr

/-- type(handler): the Python class of a compiled handler. -/
def classOf : Handler → HandlerClass
  | .string _ => .stringH
  | .number _ => .numberH
  | .boolean _ => .booleanH
  | .nullh _ => .nullH
  | .object _ validKeys _ =>
      if validKeys.isSome then .objectH else .permissiveObjectH
  | .array _ _ => .arrayH

/-- getValidatorSynonyms(vdor): all type tags whose HANDLERS_BY_TYPE entry is
exactly the class of the given handler (class equality, so
PermissiveObjectHandler is not a synonym target of the dict entry). -/
def getValidatorSynonyms (vdor : Handler) : List Tag :=
  (HANDLERS_BY_TYPE.filter (fun kv => kv.2 == classOf vdor)).map Prod.fst

mutual
/-- getValidator(schema): compile one schema example into a handler.
The source looks up type(schema) in HANDLERS_BY_TYPE (after rerouting string
schemas that start with "number" or "bool" to the int resp. bool tag, and
deriving `required` from a trailing "?"); every JVal constructor's tag has an
entry in the table, so for JSON-compatible schemas the lookup always succeeds
and the "Unsupported JSON type in schema" branch is unreachable — the
embedding is the total function obtained by resolving that lookup per
constructor. -/
def getValidator : JVal → Handler
  | .str s =>
      let required := !(strEndsWith s "?")
      if strStartsWith s "number" then .number required
      else if strStartsWith s "bool" then .boolean required
      else .string required
  | .int _ => .number true
  | .flt _ => .number true
  | .bool _ => .boolean true
  | .null => .nullh true
  | .obj fields => .object true (some (fields.map Prod.fst)) (buildObjHandlers fields)
  | .pobj fields => .object true none (buildObjHandlers fields)
  | .arr elems => .array true (buildArrHandlers [] elems)

/-- ObjectHandler.__init__: compile each field example, keeping the schema's
key set (iteration in insertion order). -/
def buildObjHandlers : List (String × JVal) → List (String × Handler)
  | [] => []
  | (k, v) :: rest => (k, getValidator v) :: buildObjHandlers rest

/-- ArrayHandler.__init__: compile each element example and register the
handler under every synonym tag of its class; later registrations of a tag
overwrite earlier ones. -/
def buildArrHandlers : List (Tag × Handler) → List JVal → List (Tag × Handler)
  | acc, [] => acc
  | acc, v :: rest =>
      let h := getValidator v
      buildArrHandlers
        ((getValidatorSynonyms h).foldl (fun d syn => dictInsert d syn h) acc) rest
end

/-- Validation failures (JSONValidationError) by message shape; each carries
the key argument that _keyMessage (or the required-field message) would
interpolate, and `invalidType` carries the formatted element path together
with the offending runtime type from
"Element at %s has invalid type %s: %s". -/
inductive VErr where
  | requiredMissing (key : Option String)
  | notAString (key : Option String)
  | notANumber (key : Option String)
  | notABoolean (key : Option String)
  | notNull (key : Option String)
  | notAnObject (key : Option String)
  | illegalKey (key : Option String) (badKey : String)
  | notAnArray (key : Option String)
  | shouldNotBeEmpty (key : Option String)
  | invalidType (path : String) (tag : Tag)
deriving DecidableEq, Repr

/-- Python truthiness of the `key` argument: None and the empty string are
falsy. -/
def keyTruthy : Option String → Bool
  | none => false
  | some s => !(s == "")

/-- The `nextkey` formatting of ObjectHandler.validate and
ArrayHandler.validate: "%s/%%s" % key when key is truthy, else "%s". -/
def childKey (key : Option String) (sub : String) : String :=
  if keyTruthy key then key.getD "" ++ "/" ++ sub else sub

/-- BaseHandler.validate: a required handler rejects None, everything else
passes through unchanged. -/
def baseValidate (required : Bool) (data : JVal) (key : Option String) :
    Except VErr JVal :=
  if isNone data && required then .error (.requiredMissing key) else .ok data

/-- The fields of a dict-like value (used after an isinstance(data, dict)
check); data.get on any other value does not occur in the source. -/
def objFields : JVal → List (String × JVal)
  | .obj fs => fs
  | .pobj fs => fs
  | _ => []

/-- The elements of a list value (used after an isinstance(data, list)
check). -/
def arrElems : JVal → List JVal
  | .arr es => es
  | _ => []

/-- The `for key in data: if not key in self.validKeys` scan of
ObjectHandler.validate: the first data key outside the declared key set. -/
def findIllegal (validKeys : List String) : List (String × JVal) → Option String
  | [] => none
  | (k, _) :: rest => if k ∈ validKeys then findIllegal validKeys rest else some k

/-- A handler found by a dict lookup is structurally smaller than the
association list it came from (used for termination of the validator). -/
theorem alookup_sizeOf_lt {α β : Type} [DecidableEq α] [SizeOf α] [SizeOf β] :
    ∀ (l : List (α × β)) (a : α) (b : β), alookup l a = some b → sizeOf b < sizeOf l
  | (k, v) :: rest, a, b, h => by
      by_cases hk : k = a
      · simp [alookup, hk] at h
        subst h
        simp
        omega
      · simp [alookup, hk] at h
        have := alookup_sizeOf_lt rest a b h
        simp
        omega

mutual
/-- validate(data, key) of each handler class.  StringHandler, NumberHandler,
BooleanHandler, ObjectHandler and ArrayHandler first run
BaseHandler.validate; NullHandler overrides validate without calling super,
so it never performs the required check.  The String and Number checks are
guarded by Python truthiness of the data (`if data and not isinstance ...`),
the Boolean check by `data is not None`.  ObjectHandler validates every
declared field against data.get(field, None), then, when `self.validKeys` is
truthy (a non-empty set: PermissiveObjectHandler stores None instead),
rejects the first data key outside the set.  ArrayHandler accepts any list
when it has no child handlers, rejects an empty list unless a handler is
registered for types.NoneType, and otherwise routes each element to the
handler registered for its runtime type. -/
def Handler.validate : Handler → JVal → Option String → Except VErr JVal
  | .string required, data, key => do
      let data ← baseValidate required data key
      if truthy data && !(isBasestring data) then .error (.notAString key)
      else .ok data
  | .number required, data, key => do
      let data ← baseValidate required data key
      if truthy data && !(isNumberInstance data) then .error (.notANumber key)
      else .ok data
  | .boolean required, data, key => do
      let data ← baseValidate required data key
      if !(isNone data) && !(isBoolInstance data) then .error (.notABoolean key)
      else .ok data
  | .nullh _, data, key =>
      if !(isNone data) then .error (.notNull key) else .ok data
  | .object required validKeys hs, data, mykey => do
      let data ← baseValidate required data mykey
      if !(isDictInstance data) then .error (.notAnObject mykey)
      else do
        validateFields hs (objFields data) mykey
        match validKeys with
        | some vks =>
            if !vks.isEmpty then
              match findIllegal vks (objFields data) with
              | some k => .error (.illegalKey mykey k)
              | none => .ok data
            else .ok data
        | none => .ok data
  | .array required hs, data, key => do
      let data ← baseValidate required data key
      if !(isListInstance data) then .error (.notAnArray key)
      else if hs.isEmpty then .ok data
      else if (alookup hs Tag.noneType).isNone && !(truthy data) then
        .error (.shouldNotBeEmpty key)
      else do
        validateElems hs (arrElems data) 0 key
        .ok data
termination_by h _ _ => (sizeOf h, 0)
decreasing_by
  all_goals simp_wf
  all_goals apply Prod.Lex.left
  all_goals omega

/-- The `for key, handler in handlers.items()` loop of
ObjectHandler.validate, over the handlers in schema insertion order. -/
def validateFields : List (String × Handler) → List (String × JVal) →
    Option String → Except VErr Unit
  | [], _, _ => .ok ()
  | (k, h) :: rest, fields, mykey => do
      let _ ← Handler.validate h ((alookup fields k).getD JVal.null)
        (some (childKey mykey k))
      validateFields rest fields mykey
termination_by hs _ _ => (sizeOf hs, 0)
decreasing_by
  all_goals simp_wf
  all_goals apply Prod.Lex.left
  all_goals omega

/-- The `for idx, value in enumerate(data)` loop of ArrayHandler.validate:
elements whose runtime type has no registered handler fail, the others are
validated by the registered handler. -/
def validateElems : List (Tag × Handler) → List JVal → Nat → Option String →
    Except VErr Unit
  | _, [], _, _ => .ok ()
  | hs, v :: rest, idx, key =>
      match hlook : alookup hs (typeOf v) with
      | none => .error (.invalidType (childKey key (toString idx)) (typeOf v))
      | some h => do
          let _ ← Handler.validate h v (some (childKey key (toString idx)))
          validateElems hs rest (idx + 1) key
termination_by hs es _ _ => (sizeOf hs, sizeOf es)
decreasing_by
  all_goals simp_wf
  · apply Prod.Lex.left
    exact alookup_sizeOf_lt _ _ _ hlook
  · apply Prod.Lex.right
    omega
end

/-- The two shapes of data accepted by JSONValidator.validate: already
structured values, or JSON text.  For text, `parsed` records the outcome of
json.loads on `raw`: `none` when loads raises ValueError (malformed JSON),
`some v` when it returns the value v. -/
inductive DataInput where
  | text (raw : String) (parsed : Option JVal)
  | value (v : JVal)

/-- The observable outcome of JSONValidator.validate: the returned value, a
JSONError raised by the library, a JSONValidationError raised by a handler,
or the ValueError that json.loads raises on malformed text and that
JSONValidator.validate does not catch. -/
inductive TopResult where
  | ok (v : JVal)
  | jsonError (msg : String)
  | validationError (e : VErr)
  | valueError
deriving Repr

/-- JSONValidator.validate(data).  The `if self.validator:` guard is always
taken, since getValidator returns a handler object (which is truthy); string
data is parsed first, a falsy parse result raises JSONError("invalid JSON in
%s" % data), and a malformed text lets the parser's ValueError escape. -/
def JSONValidator.validate (validator : Handler) (data : DataInput) : TopResult :=
  let run := fun (d : JVal) =>
    match Handler.validate validator d none with
    | .ok v => TopResult.ok v
    | .error e => TopResult.validationError e
  match data with
  | .text raw parsed =>
      match parsed with
      | none => .valueError
      | some pd =>
          if !(truthy pd) then .jsonError ("invalid JSON in " ++ raw)
          else run pd
  | .value d => run d

/-- bind on a successful Except computation. -/
theorem ebind_ok {ε α β : Type} (a : α) (f : α → Except ε β) :
    (Except.ok a >>= f) = f a := rfl

/-- bind on a failed Except computation propagates the failure. -/
theorem ebind_err {ε α β : Type} (e : ε) (f : α → Except ε β) :
    ((Except.error e : Except ε α) >>= f) = Except.error e := rfl

/-- Looking a key up after a dict assignment: the assigned key maps to the
new value, every other key is unaffected. -/
theorem alookup_dictInsert {α β : Type} [DecidableEq α]
    (d : List (α × β)) (a x : α) (b : β) :
    alookup (dictInsert d a b) x = if x = a then some b else alookup d x := by
  induction d with
  | nil =>
      by_cases hxa : x = a
      · subst hxa
        simp [dictInsert, alookup]
      · simp [dictInsert, alookup, hxa, Ne.symm hxa]
  | cons kv rest ih =>
      obtain ⟨k, v⟩ := kv
      by_cases hka : k = a
      · subst hka
        by_cases hkx : k = x
        · subst hkx
          simp [dictInsert, alookup]
        · simp [dictInsert, alookup, hkx, Ne.symm hkx]
      · by_cases hkx : k = x
        · subst hkx
          simp [dictInsert, alookup, hka]
        · simp [dictInsert, alookup, hka, hkx, ih]

/-- The key list of a dict after an assignment: unchanged when the key was
already present, extended by the key at the end otherwise. -/
theorem keys_dictInsert {α β : Type} [DecidableEq α]
    (d : List (α × β)) (a : α) (b : β) :
    (dictInsert d a b).map Prod.fst
      = if a ∈ d.map Prod.fst then d.map Prod.fst
        else d.map Prod.fst ++ [a] := by
  induction d with
  | nil => simp [dictInsert]
  | cons kv rest ih =>
      obtain ⟨k, v⟩ := kv
      by_cases hka : k = a
      · subst hka
        simp [dictInsert]
      · by_cases hmem : a ∈ rest.map Prod.fst
        · simp [dictInsert, hka, Ne.symm hka, hmem, ih]
        · simp [dictInsert, hka, Ne.symm hka, hmem, ih]

/-- Dict assignment preserves distinctness of the keys. -/
theorem nodup_dictInsert {α β : Type} [DecidableEq α]
    (d : List (α × β)) (a : α) (b : β)
    (h : (d.map Prod.fst).Nodup) : ((dictInsert d a b).map Prod.fst).Nodup := by
  rw [keys_dictInsert]
  by_cases hmem : a ∈ d.map Prod.fst
  · simpa [hmem] using h
  · simp [hmem, List.nodup_append, h]

/-- Registering one handler under a whole list of synonym tags: each synonym
now maps to that handler, all other keys are unaffected. -/
theorem alookup_foldInsert {α β : Type} [DecidableEq α]
    (syns : List α) (b : β) :
    ∀ (d0 : List (α × β)) (x : α),
      alookup (syns.foldl (fun d syn => dictInsert d syn b) d0) x
        = if x ∈ syns then some b else alookup d0 x := by
  induction syns with
  | nil => simp
  | cons s ss ih =>
      intro d0 x
      by_cases hxss : x ∈ ss
      · simp [List.foldl_cons, ih, hxss]
      · by_cases hxs : x = s
        · subst hxs
          simp [List.foldl_cons, ih, hxss, alookup_dictInsert]
        · simp [List.foldl_cons, ih, hxss, hxs, alookup_dictInsert]

/-- Registering one handler under a list of synonym tags preserves key
distinctness. -/
theorem nodup_foldInsert {α β : Type} [DecidableEq α]
    (syns : List α) (b : β) :
    ∀ (d0 : List (α × β)), (d0.map Prod.fst).Nodup →
      (((syns.foldl (fun d syn => dictInsert d syn b) d0)).map Prod.fst).Nodup := by
  induction syns with
  | nil => intro d0 h; simpa using h
  | cons s ss ih =>
      intro d0 h
      exact ih _ (nodup_dictInsert _ _ _ h)

/-- The handler that the spec's last-wins description predicts for a given
tag: the handler compiled from the last schema element among whose synonym
tags the given tag occurs. -/
def lastRegistered : List JVal → Tag → Option Handler
  | [], _ => none
  | v :: rest, t =>
      match lastRegistered rest t with
      | some h => some h
      | none =>
          let h := getValidator v
          if t ∈ getValidatorSynonyms h then some h else none

/-- ArrayHandler registration is last-wins: looking a tag up in the built
dict finds the handler of the last element that registers that tag, falling
back to the accumulator. -/
theorem alookup_buildArrHandlers :
    ∀ (xs : List JVal) (acc : List (Tag × Handler)) (t : Tag),
      alookup (buildArrHandlers acc xs) t
        = match lastRegistered xs t with
          | some h => some h
          | none => alookup acc t := by
  intro xs
  induction xs with
  | nil => intro acc t; simp [buildArrHandlers, lastRegistered]
  | cons v rest ih =>
      intro acc t
      rw [buildArrHandlers]
      rw [ih]
      cases hrest : lastRegistered rest t with
      | some h => simp [lastRegistered, hrest]
      | none =>
          simp only [lastRegistered, hrest]
          rw [alookup_foldInsert]
          by_cases hmem : t ∈ getValidatorSynonyms (getValidator v)
          · simp [hmem]
          · simp [hmem]

/-- The dict built by ArrayHandler.__init__ always has distinct keys. -/
theorem nodup_buildArrHandlers :
    ∀ (xs : List JVal) (acc : List (Tag × Handler)),
      (acc.map Prod.fst).Nodup → ((buildArrHandlers acc xs).map Prod.fst).Nodup := by
  intro xs
  induction xs with
  | nil => intro acc h; simpa [buildArrHandlers] using h
  | cons v rest ih =>
      intro acc h
      rw [buildArrHandlers]
      exact ih _ (nodup_foldInsert _ _ _ h)

/-- BaseHandler.validate either returns its input or raises the
required-field error. -/
theorem baseValidate_cases (r : Bool) (d : JVal) (k : Option String) :
    baseValidate r d k = Except.ok d
      ∨ baseValidate r d k = Except.error (VErr.requiredMissing k) := by
  unfold baseValidate
  split
  · right; rfl
  · left; rfl

/-- C6: for every array schema example, the compiled Array node keeps at most
one child handler per runtime type tag (its dict has distinct keys), and the
handler registered for a tag is the one compiled from the last schema element
whose synonym tags contain it, i.e. a later element of an already-represented
type silently overwrites the earlier one; compilation itself always succeeds
(getValidator is total on JSON-compatible schemas). -/
theorem arrayHandler_registration_lastWins :
    ∀ xs : List JVal, ∃ hs : List (Tag × Handler),
      getValidator (JVal.arr xs) = Handler.array true hs
      ∧ (hs.map Prod.fst).Nodup
      ∧ ∀ t, alookup hs t = lastRegistered xs t := by
  intro xs
  refine ⟨buildArrHandlers [] xs, ?_, ?_, ?_⟩
  · simp [getValidator]
  · exact nodup_buildArrHandlers xs [] (by simp)
  · intro t
    rw [alookup_buildArrHandlers]
    cases hr : lastRegistered xs t <;> simp [alookup]

/-- C7: a string schema example ending in "?" compiles (in each of its three
base kinds: string, number-prefixed, bool-prefixed) to a non-required node
that returns null immediately, while the same example without the "?" suffix
rejects null with the required-field error. -/
theorem stringSchema_optional_suffix :
    ∀ (s : String) (key : Option String),
      Handler.validate (getValidator (JVal.str s)) JVal.null key
        = if strEndsWith s "?" then Except.ok JVal.null
          else Except.error (VErr.requiredMissing key) := by
  intro s key
  simp only [getValidator]
  cases he : strEndsWith s "?" <;>
    by_cases h1 : strStartsWith s "number" <;>
      by_cases h2 : strStartsWith s "bool" <;>
        simp [Handler.validate, baseValidate, isNone, truthy, isBoolInstance,
          typeOf, h1, h2, he, ebind_ok, ebind_err]

/-- C8: a literal-null schema compiles to a NullHandler, and NullHandler
validation (which never calls the base required check) succeeds exactly when
the data is None — in particular an absent object field, delivered as None,
is accepted — and rejects every non-null value regardless of the stored
required flag. -/
theorem nullHandler_exact_null :
    ∀ (req : Bool) (data : JVal) (key : Option String),
      getValidator JVal.null = Handler.nullh true
      ∧ Handler.validate (Handler.nullh req) data key
          = if isNone data then Except.ok data
            else Except.error (VErr.notNull key) := by
  intro req data key
  constructor
  · simp [getValidator]
  · simp only [Handler.validate]
    cases hn : isNone data <;> simp [hn]

/-- C9: validation never produces anything but its own input: every handler
either returns exactly the data value it was given or raises a validation
error, both at the handler level and through JSONValidator.validate on
structured data (the embedding is a pure function, so neither the data nor
the handler tree is mutated). -/
theorem validate_returns_input_or_fails :
    ∀ (h : Handler) (d : JVal) (key : Option String),
      (Handler.validate h d key = Except.ok d
        ∨ ∃ e, Handler.validate h d key = Except.error e)
      ∧ (JSONValidator.validate h (DataInput.value d) = TopResult.ok d
        ∨ ∃ e, JSONValidator.validate h (DataInput.value d)
            = TopResult.validationError e) := by
  intro h d key0
  have main : ∀ key, Handler.validate h d key = Except.ok d
      ∨ ∃ e, Handler.validate h d key = Except.error e := by
    intro key
    cases h with
    | string r =>
        simp only [Handler.validate]
        rcases baseValidate_cases r d key with hb | hb <;> rw [hb]
        · rw [ebind_ok]
          split
          · right; exact ⟨_, rfl⟩
          · left; rfl
        · rw [ebind_err]; right; exact ⟨_, rfl⟩
    | number r =>
        simp only [Handler.validate]
        rcases baseValidate_cases r d key with hb | hb <;> rw [hb]
        · rw [ebind_ok]
          split
          · right; exact ⟨_, rfl⟩
          · left; rfl
        · rw [ebind_err]; right; exact ⟨_, rfl⟩
    | boolean r =>
        simp only [Handler.validate]
        rcases baseValidate_cases r d key with hb | hb <;> rw [hb]
        · rw [ebind_ok]
          split
          · right; exact ⟨_, rfl⟩
          · left; rfl
        · rw [ebind_err]; right; exact ⟨_, rfl⟩
    | nullh r =>
        simp only [Handler.validate]
        split
        · right; exact ⟨_, rfl⟩
        · left; rfl
    | object r validKeys hs =>
        simp only [Handler.validate]
        rcases baseValidate_cases r d key with hb | hb <;> rw [hb]
        · rw [ebind_ok]
          split
          · right; exact ⟨_, rfl⟩
          · cases hv : validateFields hs (objFields d) key with
            | ok u =>
                cases u
                rw [ebind_ok]
                cases validKeys with
                | none => left; rfl
                | some vks =>
                    by_cases hne : !vks.isEmpty
                    · simp only [hne, if_true]
                      cases hf : findIllegal vks (objFields d) with
                      | none => left; rfl
                      | some k => right; exact ⟨_, rfl⟩
                    · simp only [hne, if_false]
                      left; rfl
            | error e => rw [ebind_err]; right; exact ⟨_, rfl⟩
        · rw [ebind_err]; right; exact ⟨_, rfl⟩
    | array r hs =>
        simp only [Handler.validate]
        rcases baseValidate_cases r d key with hb | hb <;> rw [hb]
        · rw [ebind_ok]
          split
          · right; exact ⟨_, rfl⟩
          · split
            · left; rfl
            · split
              · right; exact ⟨_, rfl⟩
              · cases hv : validateElems hs (arrElems d) 0 key with
                | ok u => cases u; rw [ebind_ok]; left; rfl
                | error e => rw [ebind_err]; right; exact ⟨_, rfl⟩
        · rw [ebind_err]; right; exact ⟨_, rfl⟩
  refine ⟨main key0, ?_⟩
  rcases main none with hm | ⟨e, hm⟩
  · left; simp [JSONValidator.validate, hm]
  · right; exact ⟨e, by simp [JSONValidator.validate, hm]⟩

/-- A truthy value is never None. -/
theorem truthy_not_none (d : JVal) (h : truthy d = true) : isNone d = false := by
  cases d <;> simp_all [truthy, isNone]

/-- C2 counterexample: the String and Number type checks are guarded by
Python truthiness of the data (`if data and not isinstance ...`), so a falsy
value of the wrong type passes — a required Number node accepts the non-null
non-number "" and a required String node accepts the non-null non-string 0 —
and a Number node also accepts True, since Python bool is a subclass of int;
the claim that every non-null wrong-typed value fails is therefore false. -/
theorem numberHandler_accepts_falsy_or_bool :
    Handler.validate (Handler.number true) (JVal.str "") none
      = Except.ok (JVal.str "")
    ∧ Handler.validate (Handler.number true) (JVal.bool true) none
      = Except.ok (JVal.bool true)
    ∧ Handler.validate (Handler.string true) (JVal.int 0) none
      = Except.ok (JVal.int 0) := by
  simp +decide [Handler.validate, baseValidate, isNone, truthy,
    isBasestring, isNumberInstance, typeOf, ebind_ok, ebind_err]

/-- C2 amended: for truthy data the checks do fire: a String node rejects
every truthy non-string with the is-not-a-string error, and a Number node
rejects every truthy value that is not an int, long, float or bool instance
with the is-not-a-number error, whatever the required flag. -/
theorem typedHandlers_fail_on_truthy_wrong_type :
    ∀ (req : Bool) (data : JVal) (key : Option String),
      truthy data = true →
      (isBasestring data = false →
        Handler.validate (Handler.string req) data key
          = Except.error (VErr.notAString key))
      ∧ (isNumberInstance data = false →
        Handler.validate (Handler.number req) data key
          = Except.error (VErr.notANumber key)) := by
  intro req data key ht
  have hn : isNone data = false := truthy_not_none data ht
  constructor
  · intro hbs
    simp [Handler.validate, baseValidate, hn, ht, hbs, ebind_ok]
  · intro hni
    simp [Handler.validate, baseValidate, hn, ht, hni, ebind_ok]

/-- C2 witness: a concrete truthy value that is neither a string nor a
number, rejected by both node kinds. -/
theorem typedHandlers_fail_on_truthy_wrong_type_witness :
    truthy (JVal.arr [JVal.int 1]) = true
    ∧ Handler.validate (Handler.string true) (JVal.arr [JVal.int 1]) none
        = Except.error (VErr.notAString none)
    ∧ Handler.validate (Handler.number true) (JVal.arr [JVal.int 1]) none
        = Except.error (VErr.notANumber none) := by
  refine ⟨by decide, ?_, ?_⟩
  · exact (typedHandlers_fail_on_truthy_wrong_type true (JVal.arr [JVal.int 1])
      none (by decide)).1 (by decide)
  · exact (typedHandlers_fail_on_truthy_wrong_type true (JVal.arr [JVal.int 1])
      none (by decide)).2 (by decide)

/-- C3 counterexample: the schema ["string?"] compiles to an Array node whose
only child (a non-required StringHandler) accepts null, yet the empty input
array is still rejected with should-not-be-empty, because the emptiness check
only looks for a handler registered under the NoneType tag. -/
theorem optionalChild_does_not_allow_empty_array :
    getValidator (JVal.str "string?") = Handler.string false
    ∧ Handler.validate (Handler.string false) JVal.null none = Except.ok JVal.null
    ∧ Handler.validate (getValidator (JVal.arr [JVal.str "string?"]))
        (JVal.arr []) none
      = Except.error (VErr.shouldNotBeEmpty none) := by
  simp +decide [getValidator, buildArrHandlers, Handler.validate, validateFields,
    validateElems, baseValidate, isNone, isDictInstance, isListInstance,
    isBasestring, isNumberInstance, isBoolInstance, typeOf, truthy, objFields,
    arrElems, alookup, childKey, keyTruthy, findIllegal, ebind_ok, ebind_err,
    dictInsert, getValidatorSynonyms, classOf, HANDLERS_BY_TYPE,
    strStartsWith, strEndsWith]

/-- C3 amended: an Array node compiled from an empty example array accepts
every input array including the empty one; an Array node with child handlers
rejects the empty input array with should-not-be-empty exactly when no
handler is registered under the NoneType tag (i.e. the schema array contains
no null example) — a child that merely accepts null, such as one compiled
from "string?", does not prevent the failure. -/
theorem arrayHandler_empty_array_behavior :
    ∀ (elems : List JVal) (key : Option String)
      (hs1 hs2 : List (Tag × Handler)) (h0 : Handler),
      Handler.validate (getValidator (JVal.arr [])) (JVal.arr elems) key
        = Except.ok (JVal.arr elems)
      ∧ (hs1.isEmpty = false → alookup hs1 Tag.noneType = none →
          Handler.validate (Handler.array true hs1) (JVal.arr []) key
            = Except.error (VErr.shouldNotBeEmpty key))
      ∧ (alookup hs2 Tag.noneType = some h0 →
          Handler.validate (Handler.array true hs2) (JVal.arr []) key
            = Except.ok (JVal.arr [])) := by
  intro elems key hs1 hs2 h0
  refine ⟨?_, ?_, ?_⟩
  · simp [getValidator, buildArrHandlers, Handler.validate, baseValidate,
      isNone, isListInstance, typeOf, ebind_ok]
  · intro hne hlk
    simp [Handler.validate, baseValidate, isNone, isListInstance, typeOf,
      truthy, hne, hlk, ebind_ok]
  · intro hlk
    simp [Handler.validate, validateElems, baseValidate, isNone,
      isListInstance, typeOf, truthy, arrElems, hlk, ebind_ok]

/-- C3 witness: concrete instances — any array against the empty-example
schema, a string-only handler dict rejecting the empty array, and a dict
with a NoneType entry accepting it. -/
theorem arrayHandler_empty_array_behavior_witness :
    Handler.validate (getValidator (JVal.arr [])) (JVal.arr [JVal.int 1]) none
      = Except.ok (JVal.arr [JVal.int 1])
    ∧ Handler.validate (Handler.array true [(Tag.str, Handler.string true)])
        (JVal.arr []) none
      = Except.error (VErr.shouldNotBeEmpty none)
    ∧ Handler.validate (Handler.array true [(Tag.noneType, Handler.nullh true)])
        (JVal.arr []) none
      = Except.ok (JVal.arr []) := by
  obtain ⟨h1, h2, h3⟩ := arrayHandler_empty_array_behavior [JVal.int 1] none
    [(Tag.str, Handler.string true)] [(Tag.noneType, Handler.nullh true)]
    (Handler.nullh true)
  exact ⟨h1, h2 rfl rfl, h3 rfl⟩

/-- If some data key lies outside the declared key set, the illegal-key scan
finds one. -/
theorem findIllegal_some (vks : List String) :
    ∀ flds : List (String × JVal), (∃ kv ∈ flds, kv.1 ∉ vks) →
      ∃ k, findIllegal vks flds = some k ∧ k ∉ vks := by
  intro flds
  induction flds with
  | nil => simp
  | cons kv rest ih =>
      obtain ⟨k0, v0⟩ := kv
      intro hex
      by_cases hk : k0 ∈ vks
      · have hrest : ∃ kv ∈ rest, kv.1 ∉ vks := by
          rcases hex with ⟨kv, hmem, hout⟩
          rcases List.mem_cons.mp hmem with heq | hmem2
          · exact absurd hk (by simpa [heq] using hout)
          · exact ⟨kv, hmem2, hout⟩
        rcases ih hrest with ⟨k, hfind, hout⟩
        exact ⟨k, by simp [findIllegal, hk, hfind], hout⟩
      · exact ⟨k0, by simp [findIllegal, hk], hk⟩

/-- C4 counterexample: a Strict Object node compiled from the empty schema
object stores an empty validKeys set, which is falsy, so the illegal-key scan
is skipped and a mapping with an undeclared key is accepted; and even with a
non-empty field set, a mapping whose declared field fails to validate raises
that field's error rather than the illegal-key error. -/
theorem strictObject_skips_illegal_check :
    Handler.validate (getValidator (JVal.obj []))
      (JVal.obj [("foo", JVal.str "bar")]) none
      = Except.ok (JVal.obj [("foo", JVal.str "bar")])
    ∧ Handler.validate (getValidator (JVal.obj [("one", JVal.int 1)]))
        (JVal.obj [("one", JVal.str "bad"), ("foo", JVal.str "bar")]) none
      = Except.error (VErr.notANumber (some "one")) := by
  simp +decide [getValidator, buildObjHandlers, Handler.validate, validateFields,
    validateElems, baseValidate, isNone, isDictInstance, isListInstance,
    isBasestring, isNumberInstance, isBoolInstance, typeOf, truthy, objFields,
    arrElems, alookup, childKey, keyTruthy, findIllegal, ebind_ok, ebind_err,
    dictInsert, getValidatorSynonyms, classOf, HANDLERS_BY_TYPE,
    strStartsWith, strEndsWith]

/-- C4 amended: when the declared key set is non-empty and every declared
field validates, a Strict Object node fails with the illegal-key error on any
mapping containing an undeclared key, while a Permissive Object node (which
stores validKeys = None) accepts the same mapping. -/
theorem objectHandler_illegalKey_behavior :
    ∀ (req : Bool) (vks : List String) (hs : List (String × Handler))
      (flds : List (String × JVal)) (mykey : Option String),
      validateFields hs flds mykey = Except.ok () →
      (vks.isEmpty = false →
        (∃ kv ∈ flds, kv.1 ∉ vks) →
        ∃ k, k ∉ vks ∧
          Handler.validate (Handler.object req (some vks) hs)
            (JVal.obj flds) mykey
            = Except.error (VErr.illegalKey mykey k))
      ∧ Handler.validate (Handler.object req none hs) (JVal.obj flds) mykey
          = Except.ok (JVal.obj flds) := by
  intro req vks hs flds mykey hfields
  constructor
  · intro hne hex
    rcases findIllegal_some vks flds hex with ⟨k, hfind, hout⟩
    refine ⟨k, hout, ?_⟩
    simp [Handler.validate, baseValidate, isNone, isDictInstance, typeOf,
      objFields, hfields, hne, hfind, ebind_ok]
  · simp [Handler.validate, baseValidate, isNone, isDictInstance, typeOf,
      objFields, hfields, ebind_ok]

/-- C4 witness: schema keys ("one" : NumberHandler), data with a validating
"one" plus an extra "foo"; the strict node raises illegal-key, the permissive
variant accepts. -/
theorem objectHandler_illegalKey_behavior_witness :
    (∃ k, k ∉ ["one"] ∧
      Handler.validate
        (Handler.object true (some ["one"]) [("one", Handler.number true)])
        (JVal.obj [("one", JVal.int 0), ("foo", JVal.str "bar")]) none
        = Except.error (VErr.illegalKey none k))
    ∧ Handler.validate
        (Handler.object true none [("one", Handler.number true)])
        (JVal.obj [("one", JVal.int 0), ("foo", JVal.str "bar")]) none
        = Except.ok (JVal.obj [("one", JVal.int 0), ("foo", JVal.str "bar")]) := by
  have h := objectHandler_illegalKey_behavior true ["one"]
    [("one", Handler.number true)]
    [("one", JVal.int 0), ("foo", JVal.str "bar")] none
    (by simp [validateFields, Handler.validate, baseValidate, isNone, truthy,
      isNumberInstance, typeOf, alookup, childKey, keyTruthy, ebind_ok])
  refine ⟨h.1 rfl ⟨("foo", JVal.str "bar"), by simp, by simp⟩, h.2⟩

/-- C1: behaviour of the compiled schema ["string", 1] on the docstring's
example data.  [3], [""] and ["x", 4, "y"] validate; the non-arrays fail
is-not-an-array; [true] and [1, false] fail has-invalid-type because no
handler is registered for bool; but the empty array — declared Valid in the
module docstring — is rejected with should-not-be-empty, since the handler
dict is non-empty and has no NoneType entry. -/
theorem arraySchema_string_number_examples :
    Handler.validate (getValidator (JVal.arr [JVal.str "string", JVal.int 1]))
      (JVal.arr []) none
      = Except.error (VErr.shouldNotBeEmpty none)
    ∧ Handler.validate (getValidator (JVal.arr [JVal.str "string", JVal.int 1]))
        (JVal.arr [JVal.int 3]) none
      = Except.ok (JVal.arr [JVal.int 3])
    ∧ Handler.validate (getValidator (JVal.arr [JVal.str "string", JVal.int 1]))
        (JVal.arr [JVal.str ""]) none
      = Except.ok (JVal.arr [JVal.str ""])
    ∧ Handler.validate (getValidator (JVal.arr [JVal.str "string", JVal.int 1]))
        (JVal.arr [JVal.str "x", JVal.int 4, JVal.str "y"]) none
      = Except.ok (JVal.arr [JVal.str "x", JVal.int 4, JVal.str "y"])
    ∧ Handler.validate (getValidator (JVal.arr [JVal.str "string", JVal.int 1]))
        (JVal.obj []) none
      = Except.error (VErr.notAnArray none)
    ∧ Handler.validate (getValidator (JVal.arr [JVal.str "string", JVal.int 1]))
        (JVal.int 1) none
      = Except.error (VErr.notAnArray none)
    ∧ Handler.validate (getValidator (JVal.arr [JVal.str "string", JVal.int 1]))
        (JVal.str "") none
      = Except.error (VErr.notAnArray none)
    ∧ Handler.validate (getValidator (JVal.arr [JVal.str "string", JVal.int 1]))
        (JVal.arr [JVal.bool true]) none
      = Except.error (VErr.invalidType "0" Tag.bool)
    ∧ Handler.validate (getValidator (JVal.arr [JVal.str "string", JVal.int 1]))
        (JVal.arr [JVal.int 1, JVal.bool false]) none
      = Except.error (VErr.invalidType "1" Tag.bool) := by
  simp +decide [getValidator, buildArrHandlers, Handler.validate, validateFields,
    validateElems, baseValidate, isNone, isDictInstance, isListInstance,
    isBasestring, isNumberInstance, isBoolInstance, typeOf, truthy, objFields,
    arrElems, alookup, childKey, keyTruthy, findIllegal, ebind_ok, ebind_err,
    dictInsert, getValidatorSynonyms, classOf, HANDLERS_BY_TYPE,
    strStartsWith, strEndsWith]

/-- C5: JSONValidator.validate on text data.  Text whose parse yields a falsy
top-level value ("0", "false", "null", "[]", the empty object) raises
JSONError("invalid JSON in %s"), and text parsing to a truthy value is passed
to schema validation; but text that fails to parse at all is NOT turned into
a JSONError — json.loads raises ValueError and validate does not catch it,
contrary to the module docstring's "Raise JSONError on invalid JSON". -/
theorem topLevel_parse_error_behavior :
    JSONValidator.validate (getValidator (JVal.str "string"))
      (DataInput.text "not json" none) = TopResult.valueError
    ∧ JSONValidator.validate (getValidator (JVal.str "string"))
        (DataInput.text "0" (some (JVal.int 0)))
      = TopResult.jsonError "invalid JSON in 0"
    ∧ JSONValidator.validate (getValidator (JVal.str "string"))
        (DataInput.text "false" (some (JVal.bool false)))
      = TopResult.jsonError "invalid JSON in false"
    ∧ JSONValidator.validate (getValidator (JVal.str "string"))
        (DataInput.text "null" (some JVal.null))
      = TopResult.jsonError "invalid JSON in null"
    ∧ JSONValidator.validate (getValidator (JVal.arr []))
        (DataInput.text "[]" (some (JVal.arr [])))
      = TopResult.jsonError "invalid JSON in []"
    ∧ JSONValidator.validate (getValidator (JVal.obj []))
        (DataInput.text "\x7b\x7d" (some (JVal.obj [])))
      = TopResult.jsonError "invalid JSON in \x7b\x7d"
    ∧ JSONValidator.validate (getValidator (JVal.str "string"))
        (DataInput.text "\"x\"" (some (JVal.str "x")))
      = TopResult.ok (JVal.str "x") := by
  simp +decide [JSONValidator.validate, getValidator, Handler.validate,
    baseValidate, isNone, isBasestring, typeOf, truthy, ebind_ok, ebind_err,
    strStartsWith, strEndsWith]

/-- C10 counterexample: an array schema that contains a PermissiveObject
example NEXT TO a plain-dict example routes plain-dict data elements to the
strict ObjectHandler registered for the dict tag, so they do not fail with
has-invalid-type; the claim's consequence fails for such schemas. -/
theorem permissiveExample_alongside_dict_example :
    Handler.validate (getValidator (JVal.arr [JVal.obj [], JVal.pobj []]))
      (JVal.arr [JVal.obj [("a", JVal.int 1)]]) none
      = Except.ok (JVal.arr [JVal.obj [("a", JVal.int 1)]]) := by
  simp +decide [getValidator, buildArrHandlers, buildObjHandlers,
    Handler.validate, validateFields, validateElems, baseValidate, isNone,
    isDictInstance, isListInstance, isBasestring, isNumberInstance,
    isBoolInstance, typeOf, truthy, objFields, arrElems, alookup, childKey,
    keyTruthy, findIllegal, ebind_ok, ebind_err, dictInsert,
    getValidatorSynonyms, classOf, HANDLERS_BY_TYPE, strStartsWith,
    strEndsWith]

/-- C10 amended: the child compiled from a PermissiveObject example is
registered only under the PermissiveObject tag (its synonym list is exactly
that tag, so the schema [PermissiveObject(...)] registers nothing under the
plain-dict tag), and in any non-empty handler dict with no entry for the dict
tag a plain-dict data element fails with has-invalid-type. -/
theorem permissiveObject_tag_registration :
    ∀ (pf : List (String × JVal)) (hs : List (Tag × Handler))
      (flds : List (String × JVal)) (key : Option String) (req : Bool),
      getValidatorSynonyms (getValidator (JVal.pobj pf)) = [Tag.permissiveObject]
      ∧ getValidator (JVal.arr [JVal.pobj pf])
          = Handler.array true
              [(Tag.permissiveObject, getValidator (JVal.pobj pf))]
      ∧ (hs.isEmpty = false → alookup hs Tag.dict = none →
          Handler.validate (Handler.array req hs)
            (JVal.arr [JVal.obj flds]) key
            = Except.error (VErr.invalidType (childKey key "0") Tag.dict)) := by
  intro pf hs flds key req
  refine ⟨?_, ?_, ?_⟩
  · simp +decide [getValidator, getValidatorSynonyms, classOf, HANDLERS_BY_TYPE]
  · simp +decide [getValidator, buildArrHandlers, getValidatorSynonyms,
      classOf, HANDLERS_BY_TYPE, dictInsert]
  · intro hne hlk
    have h0 : (toString (0 : Nat)) = "0" := rfl
    simp [Handler.validate, validateElems, baseValidate, isNone,
      isListInstance, typeOf, truthy, arrElems, hne, hlk, h0, ebind_ok]
    split
    · rfl
    · next h heq => simp [hlk] at heq

/-- C10 witness: the one-element permissive-only handler dict rejects a
plain-dict element with has-invalid-type. -/
theorem permissiveObject_tag_registration_witness :
    getValidatorSynonyms (getValidator (JVal.pobj [])) = [Tag.permissiveObject]
    ∧ Handler.validate
        (Handler.array true [(Tag.permissiveObject, Handler.object true none [])])
        (JVal.arr [JVal.obj [("a", JVal.int 1)]]) none
      = Except.error (VErr.invalidType (childKey none "0") Tag.dict) := by
  have h := permissiveObject_tag_registration []
    [(Tag.permissiveObject, Handler.object true none [])]
    [("a", JVal.int 1)] none true
  exact ⟨h.1, h.2.2 rfl rfl⟩

/-- C8 counterexample: an absent object field is delivered to its handler as
None, and NullHandler accepts None, so the schema object with a literal-null
field accepts the empty mapping — the claim that a Null node rejects every
absent field is false. -/
theorem nullSchema_accepts_absent_field :
    Handler.validate (getValidator (JVal.obj [("a", JVal.null)]))
      (JVal.obj []) none
      = Except.ok (JVal.obj []) := by
  simp +decide [getValidator, buildObjHandlers, Handler.validate, validateFields,
    validateElems, baseValidate, isNone, isDictInstance, isListInstance,
    isBasestring, isNumberInstance, isBoolInstance, typeOf, truthy, objFields,
    arrElems, alookup, childKey, keyTruthy, findIllegal, ebind_ok, ebind_err,
    dictInsert, getValidatorSynonyms, classOf, HANDLERS_BY_TYPE,
    strStartsWith, strEndsWith]
